import Mathlib

/-!
# Verification of the LocalBudgetAI expense aggregation and storage layer

Shallow embedding of the functions in `app/analyzer.py`, `app/database.py`
and `app/llm_helper.py` of the LocalBudgetAI repository, together with
theorems settling the specification claims about them.

Modelling conventions:
* pandas numeric cells are rationals (`ℚ`); a raw `Amount` cell is a value of
  `RawAmount`, recording both its Python runtime type and the outcome of
  `pd.to_numeric(..., errors='coerce')` on it.
* a raw `Date` cell of the analyzer is a value of `RawDate`, recording the
  outcome of the multi-strategy parsing block of `analyze_monthly_trend`
  (explicit format / automatic parsing / list of common formats): either the
  calendar month the cell resolves to (as a linear month index, the model of a
  pandas `Period('M')`, whose order is exactly the chronological order of the
  rendered `"YYYY-MM"` strings) or no parse at all.
* a DataFrame handed to the analyzer is a `Table`: a list of rows that, by
  type, have the `Category`/`Amount`/`Date` columns.  The
  `Missing required columns` branch of `ExpenseAnalyzer.validate_dataframe`
  concerns tables outside this typed domain; the `DataFrame is empty` branch
  is modelled faithfully.
-/

namespace LocalBudgetAI

/-- A raw `Amount` cell.
`num q` is a cell that is already a Python `int` or `float` with value `q`;
`numStr q` is a string cell that `pd.to_numeric` parses to `q`
(e.g. `"50.00"`); `nan` is a float NaN cell; `invalid` is any other cell,
on which numeric coercion fails. -/
inductive RawAmount where
  | num (q : ℚ)
  | numStr (q : ℚ)
  | nan
  | invalid
deriving DecidableEq

/-- Outcome of `pd.to_numeric(cell, errors='coerce')` followed by
`dropna`: the numeric value, or `none` when the row is dropped. -/
def toNumeric : RawAmount → Option ℚ
  | .num q => some q
  | .numStr q => some q
  | .nan => none
  | .invalid => none

/-- `pd.isna` on a raw amount cell. -/
def pd_isna : RawAmount → Bool
  | .nan => true
  | _ => false

/-- `isinstance(cell, (int, float))` on a raw amount cell.  A float NaN is
an instance of `float`, so it satisfies the type test. -/
def isNumericType : RawAmount → Bool
  | .num _ => true
  | .nan => true
  | _ => false

/-- A raw `Date` cell of the analyzer.  `parsed m` resolves (under some
strategy of the parsing block of `analyze_monthly_trend`, lines 291-317 of
`analyzer.py`) to the month with linear index `m` (year*12+month of the
`Period('M')` truncation); `unparseable` is dropped by every strategy. -/
inductive RawDate where
  | parsed (m : ℤ)
  | unparseable
deriving DecidableEq

/-- Month that a raw date cell resolves to, `none` when the row is dropped
after all parsing strategies. -/
def parseMonth : RawDate → Option ℤ
  | .parsed m => some m
  | .unparseable => none

/-- One row of an analyzer DataFrame (`Category`, `Amount`, `Date` columns). -/
structure Row where
  category : String
  amount : RawAmount
  date : RawDate
deriving DecidableEq

/-- An analyzer DataFrame with the required columns present. -/
structure Table where
  rows : List Row
deriving DecidableEq

/-- `ExpenseAnalyzer.validate_dataframe` with `data_validation = True`
(the default used by both analysis functions): raises `ValueError` on an
empty DataFrame.  The missing-columns branch is outside the typed domain
of `Table`. -/
def validate_dataframe (t : Table) : Except String Unit :=
  if t.rows.isEmpty then .error "DataFrame is empty" else .ok ()

/-- Sum of the `Amount` values of the rows of `pairs` whose key equals `k`:
the value that `groupby(key)[...].sum()` assigns to the group `k`. -/
def groupSum {α : Type} [DecidableEq α] (pairs : List (α × ℚ)) (k : α) : ℚ :=
  ((pairs.filter (fun p => p.1 = k)).map Prod.snd).sum

/-- The ascending key order in which pandas `groupby` (with its default
`sort=True`) emits the groups.  For `String` keys this is the lexicographic
code-point order, stated on the character lists (which is exactly the order
of Python/pandas string comparison). -/
class GroupKeyOrder (α : Type) where
  keyLe : α → α → Prop
  decLe : DecidableRel keyLe
  totalLe : ∀ a b, keyLe a b ∨ keyLe b a
  transLe : ∀ a b c, keyLe a b → keyLe b c → keyLe a c

instance {α : Type} [inst : GroupKeyOrder α] : DecidableRel (GroupKeyOrder.keyLe (α := α)) :=
  inst.decLe

instance : GroupKeyOrder String where
  keyLe a b := a.toList ≤ b.toList
  decLe := fun a b => inferInstanceAs (Decidable (a.toList ≤ b.toList))
  totalLe a b := le_total a.toList b.toList
  transLe _ _ _ h1 h2 := le_trans h1 h2

instance : GroupKeyOrder ℤ where
  keyLe a b := a ≤ b
  decLe := fun a b => inferInstanceAs (Decidable (a ≤ b))
  totalLe a b := le_total a b
  transLe _ _ _ h1 h2 := le_trans h1 h2

/-- The distinct group keys of `pairs`, in the ascending key order in which
pandas `groupby` (with its default `sort=True`) emits the groups. -/
def groupKeysSorted {α : Type} [DecidableEq α] [GroupKeyOrder α]
    (pairs : List (α × ℚ)) : List α :=
  ((pairs.map Prod.fst).dedup).insertionSort GroupKeyOrder.keyLe

/-- `groupby(key)[Amount].sum()`: one `(key, total)` pair per distinct key,
emitted in ascending key order. -/
def groupbySum {α : Type} [DecidableEq α] [GroupKeyOrder α]
    (pairs : List (α × ℚ)) : List (α × ℚ) :=
  (groupKeysSorted pairs).map (fun k => (k, groupSum pairs k))

/-- Steps 1-3 of `analyze_expenses_by_category` (lines 93-109 of
`analyzer.py`): numeric coercion with drop of failures, the expense filter
with absolute value when `include_income` is false, and the minimum-amount
threshold. -/
def cleanPairs (t : Table) (include_income : Bool) (min_amount_threshold : ℚ) :
    List (String × ℚ) :=
  let coerced := t.rows.filterMap
    (fun r => (toNumeric r.amount).map (fun q => (r.category, q)))
  let filtered :=
    if include_income then coerced
    else (coerced.filter (fun p => p.2 < 0)).map (fun p => (p.1, |p.2|))
  filtered.filter (fun p => min_amount_threshold ≤ p.2)

/-- Descending-by-total order used by `.sort_values(ascending=False)`.
The source delegates ties between equal totals to an unstable library sort
with no documented order; the embedding uses a (stable) insertion sort and
no theorem below depends on the relative order of equal totals. -/
def byTotalDesc (a b : α × ℚ) : Prop := b.2 ≤ a.2

instance : DecidableRel (byTotalDesc (α := α)) := fun a b =>
  inferInstanceAs (Decidable (b.2 ≤ a.2))

instance : IsTotal (α × ℚ) byTotalDesc := ⟨fun a b => le_total b.2 a.2⟩

instance : IsTrans (α × ℚ) byTotalDesc :=
  ⟨fun _ _ _ h1 h2 => le_trans h2 h1⟩

/-- `analyze_expenses_by_category` (lines 65-119 of `analyzer.py`).
Raising `ValueError` is modelled by `Except.error`; the returned
`pd.Series` is the list of `(category, total)` pairs in output order. -/
def analyze_expenses_by_category (t : Table) (include_income : Bool := false)
    (min_amount_threshold : ℚ := 1/100) : Except String (List (String × ℚ)) :=
  match validate_dataframe t with
  | .error e => .error e
  | .ok _ =>
    let pairs := cleanPairs t include_income min_amount_threshold
    if pairs.isEmpty then .ok []
    else .ok ((groupbySum pairs).insertionSort byTotalDesc)

/-- Steps of `analyze_monthly_trend` up to and including date parsing
(lines 281-321 of `analyzer.py`): numeric coercion with drop of failures,
then the multi-strategy date parsing with drop of unparsed rows. -/
def monthlyDatedPairs (t : Table) : List (ℤ × ℚ) :=
  let withAmount := t.rows.filterMap
    (fun r => (toNumeric r.amount).map (fun q => (r.date, q)))
  withAmount.filterMap (fun p => (parseMonth p.1).map (fun m => (m, p.2)))

/-- `analyze_monthly_trend` (lines 253-350 of `analyzer.py`), as called with
the default `date_format=None` (so strategy 1 is skipped and the remaining
strategies are summarised by `parseMonth`).  Keys are the linear month
indices of the `Period('M')` values; the source renders them as `"YYYY-MM"`
strings, whose chronological order is the order of the indices. -/
def analyze_monthly_trend (t : Table) (include_income : Bool := false) :
    Except String (List (ℤ × ℚ)) :=
  match validate_dataframe t with
  | .error e => .error e
  | .ok _ =>
    let dated := monthlyDatedPairs t
    if dated.isEmpty then .ok []
    else
      let filtered :=
        if include_income then dated
        else (dated.filter (fun p => p.2 < 0)).map (fun p => (p.1, |p.2|))
      if filtered.isEmpty then .ok []
      else .ok (groupbySum filtered)

/-- The summary dictionary built by `generate_expense_summary_report`
(lines 449-460 of `analyzer.py`).  `expense_by_category` and
`monthly_expenses` model the `to_dict()` exports of the two series. -/
structure Report where
  total_records : ℕ
  total_expenses : ℚ
  total_income : ℚ
  net_savings : ℚ
  top_expense_category : String
  categories_count : ℕ
  months_covered : ℕ
  avg_monthly_expense : ℚ
  expense_by_category : List (String × ℚ)
  monthly_expenses : List (ℤ × ℚ)
deriving DecidableEq

/-- Result of `generate_expense_summary_report`: either the summary
dictionary, or the `{"error": str(e)}` dictionary produced by the
`except` clause (lines 465-467 of `analyzer.py`). -/
inductive ReportResult where
  | ok (r : Report)
  | err (msg : String)
deriving DecidableEq

/-- `generate_expense_summary_report` (lines 419-467 of `analyzer.py`).
Both analysis functions are called with their defaults
(`include_income=False`, `min_amount_threshold=0.01`); any exception they
raise is caught and turned into the `err` dictionary. -/
def generate_expense_summary_report (t : Table) : ReportResult :=
  match analyze_expenses_by_category t false (1/100) with
  | .error e => .err e
  | .ok category_summary =>
    match analyze_monthly_trend t false with
    | .error e => .err e
    | .ok monthly_summary =>
      let total_expenses := (category_summary.map Prod.snd).sum
      let top_category :=
        match category_summary with
        | [] => "N/A"
        | p :: _ => p.1
      let avg_monthly_expense :=
        if monthly_summary.isEmpty then 0
        else (monthly_summary.map Prod.snd).sum / (monthly_summary.length : ℚ)
      let total_income :=
        ((t.rows.filterMap (fun r => toNumeric r.amount)).filter (fun q => 0 < q)).sum
      .ok {
        total_records := t.rows.length
        total_expenses := total_expenses
        total_income := total_income
        net_savings := total_income - total_expenses
        top_expense_category := top_category
        categories_count := category_summary.length
        months_covered := monthly_summary.length
        avg_monthly_expense := avg_monthly_expense
        expense_by_category := category_summary
        monthly_expenses := monthly_summary }

/-!
## Transaction store (`app/database.py`)

The SQLite table is modelled by `DBState`: the list of rows plus the next
AUTOINCREMENT id.  `TEXT` dates are strings compared, as SQLite compares
`TEXT`, lexicographically by code point (stated on character lists);
`TIMESTAMP` audit columns are abstract clock ticks supplied by the caller.
-/

/-- One row of the `expenses` table. -/
structure DBRow where
  id : ℕ
  date : String
  amount : ℚ
  category : String
  description : String
  created_at : ℕ
  updated_at : ℕ
deriving DecidableEq

/-- The persistent state of the `expenses` table. -/
structure DBState where
  rows : List DBRow
  nextId : ℕ
deriving DecidableEq

/-- Leap-year rule of the proleptic Gregorian calendar used by
`datetime.strptime`. -/
def isLeapYear (y : ℕ) : Bool :=
  (y % 4 = 0 && y % 100 ≠ 0) || y % 400 = 0

/-- Number of days of month `m` of year `y`. -/
def daysInMonth (y m : ℕ) : ℕ :=
  if m = 2 then (if isLeapYear y then 29 else 28)
  else if m = 4 || m = 6 || m = 9 || m = 11 then 30
  else 31

/-- Numeric value of a (nonempty, all-digit) list of decimal digits. -/
def digitsVal (l : List Char) : ℕ :=
  l.foldl (fun a c => a * 10 + (c.toNat - 48)) 0

/-- Model of `datetime.strptime(s, "%Y-%m-%d")` succeeding: three
dash-separated all-digit fields (year up to 4 digits, month and day up to
2, as the `strptime` patterns accept), denoting a real calendar date. -/
def valid_date_format (s : String) : Bool :=
  match s.toList.splitOn '-' with
  | [y, m, d] =>
    decide (1 ≤ y.length) && decide (y.length ≤ 4) && y.all (·.isDigit) &&
    decide (1 ≤ m.length) && decide (m.length ≤ 2) && m.all (·.isDigit) &&
    decide (1 ≤ d.length) && decide (d.length ≤ 2) && d.all (·.isDigit) &&
    decide (1 ≤ digitsVal y) &&
    decide (1 ≤ digitsVal m) && decide (digitsVal m ≤ 12) &&
    decide (1 ≤ digitsVal d) && decide (digitsVal d ≤ daysInMonth (digitsVal y) (digitsVal m))
  | _ => false

/-- `ExpenseDatabase.insert_expense` (lines 76-122 of `database.py`).
The Python signature annotates `amount: float`; the embedding types it as
`ℚ`, placing the non-numeric-amount `ValueError` branch outside the typed
domain.  `now` models `CURRENT_TIMESTAMP`. -/
def insert_expense (db : DBState) (date : String) (amount : ℚ)
    (category : String) (description : String) (now : ℕ) :
    Except String (ℕ × DBState) :=
  if date = "" || category = "" then
    .error "Date and category are required fields"
  else if ! valid_date_format date then
    .error "Date must be in YYYY-MM-DD format"
  else
    let row : DBRow :=
      ⟨db.nextId, date, amount, category, description, now, now⟩
    .ok (db.nextId, ⟨db.rows ++ [row], db.nextId + 1⟩)

/-- `ORDER BY date DESC, id DESC` of `fetch_expenses`: `a` precedes `b`
when `a`'s date is lexicographically larger, with the id as descending
tie-break. -/
def fetchOrder (a b : DBRow) : Prop :=
  b.date.toList < a.date.toList ∨ (a.date = b.date ∧ b.id ≤ a.id)

instance : DecidableRel fetchOrder := fun a b =>
  inferInstanceAs (Decidable (_ ∨ _))

instance : IsTotal DBRow fetchOrder := by
  constructor
  intro a b
  rcases lt_trichotomy a.date.toList b.date.toList with h | h | h
  · exact Or.inr (Or.inl h)
  · rcases le_total b.id a.id with hid | hid
    · exact Or.inl (Or.inr ⟨String.toList_inj.mp h, hid⟩)
    · exact Or.inr (Or.inr ⟨(String.toList_inj.mp h).symm, hid⟩)
  · exact Or.inl (Or.inl h)

instance : IsTrans DBRow fetchOrder := by
  constructor
  intro a b c hab hbc
  rcases hab with h1 | ⟨h1, h1'⟩ <;> rcases hbc with h2 | ⟨h2, h2'⟩
  · exact Or.inl (lt_trans h2 h1)
  · exact Or.inl (h2 ▸ h1)
  · exact Or.inl (h1 ▸ h2)
  · exact Or.inr ⟨h1.trans h2, le_trans h2' h1'⟩

/-- `ExpenseDatabase.fetch_expenses` (lines 124-178 of `database.py`).
Each filter is appended only when its argument is Python-truthy (`None`,
empty string and `limit=0` leave the query unfiltered); active conditions
are conjoined with `AND`; the rows are then ordered by
`date DESC, id DESC` and the `LIMIT` applied last. -/
def fetch_expenses (db : DBState) (limit : Option ℕ := none)
    (category : Option String := none) (start_date : Option String := none)
    (end_date : Option String := none) : List DBRow :=
  let afterCategory :=
    match category with
    | some c => if c = "" then db.rows else db.rows.filter (fun r => r.category = c)
    | none => db.rows
  let afterStart :=
    match start_date with
    | some s => if s = "" then afterCategory
                else afterCategory.filter (fun r => s.toList ≤ r.date.toList)
    | none => afterCategory
  let afterEnd :=
    match end_date with
    | some e => if e = "" then afterStart
                else afterStart.filter (fun r => r.date.toList ≤ e.toList)
    | none => afterStart
  let ordered := afterEnd.insertionSort fetchOrder
  match limit with
  | some n => if n = 0 then ordered else ordered.take n
  | none => ordered

/-- `ExpenseDatabase.update_expense` (lines 180-237 of `database.py`).
Validation mirrors `insert_expense`; the `UPDATE ... WHERE id = ?` touches
exactly the rows with the given id (`cursor.rowcount > 0` reports whether
any row matched) and refreshes `updated_at` on them. -/
def update_expense (db : DBState) (expense_id : ℕ) (date : String)
    (amount : ℚ) (category : String) (description : String) (now : ℕ) :
    Except String (Bool × DBState) :=
  if date = "" || category = "" then
    .error "Date and category are required fields"
  else if ! valid_date_format date then
    .error "Date must be in YYYY-MM-DD format"
  else
    let updated := db.rows.any (fun r => r.id = expense_id)
    let newRows := db.rows.map (fun r =>
      if r.id = expense_id then
        { r with date := date, amount := amount, category := category,
                 description := description, updated_at := now }
      else r)
    .ok (updated, ⟨newRows, db.nextId⟩)

/-!
## Bulk import (`ExpenseDatabase.import_from_dataframe`)

The imported DataFrame is modelled by `ImportTable`.  The required
`date`/`amount`/`category` columns are present by type (the
missing-required-columns `ValueError` of lines 359-363 concerns tables
outside this domain); the optional `description` column is tracked by an
explicit flag, since line 367 adds it to the caller's DataFrame in place
when absent.
-/

/-- A raw `date` cell of an import row.  `ts` is a pandas `Timestamp`
(already a calendar date, reformatted by `strftime("%Y-%m-%d")`); `strRaw`
is a string cell together with the outcome of `pd.to_datetime` on it;
`na` is a missing value (`pd.isna`). -/
inductive ImportDate where
  | na
  | ts (y m d : ℕ)
  | strRaw (parsed : Option (ℕ × ℕ × ℕ))
deriving DecidableEq

/-- A raw `category` cell: a string, or a missing value. -/
inductive RawCategory where
  | str (s : String)
  | na
deriving DecidableEq

/-- The `pd.isna(row['category']) or not row['category']` test (Python
truthiness: the empty string is falsy). -/
def categoryTruthy : RawCategory → Bool
  | .na => false
  | .str s => s ≠ ""

/-- `str(row['category'])`. -/
def categoryStr : RawCategory → String
  | .str s => s
  | .na => "nan"

/-- One row of an import DataFrame. `description` is the cell of the
description column; `none` models a NaN cell. -/
structure ImportRow where
  date : ImportDate
  amount : RawAmount
  category : RawCategory
  description : Option String
deriving DecidableEq

/-- An import DataFrame: rows plus whether the `description` column is
present. -/
structure ImportTable where
  hasDescriptionColumn : Bool
  rows : List ImportRow
deriving DecidableEq

/-- Left-pad the decimal digits of `n` with zeros to `width` characters. -/
def padZeros (n width : ℕ) : String :=
  let s := toString n
  ⟨List.replicate (width - s.length) '0'⟩ ++ s

/-- `strftime("%Y-%m-%d")` on a calendar date. -/
def format_date (y m d : ℕ) : String :=
  padZeros y 4 ++ "-" ++ padZeros m 2 ++ "-" ++ padZeros d 2

/-- The date handling of the import loop (lines 373-386 of `database.py`):
`None` for a missing date (`continue`), for a `Timestamp` its
`strftime("%Y-%m-%d")` rendering, for a string the rendering of its
`pd.to_datetime` parse, or `None` (`continue`) when parsing fails. -/
def rowDateString : ImportDate → Option String
  | .na => none
  | .ts y m d => some (format_date y m d)
  | .strRaw none => none
  | .strRaw (some (y, m, d)) => some (format_date y m d)

/-- One iteration of the import loop of `import_from_dataframe`
(lines 371-412 of `database.py`) over the accumulated
`(imported_count, database state)`: unusable dates, non-`int`/`float`
amounts and falsy categories are skipped via `continue`; a failing
`insert_expense` is caught by the `except` clause and skipped. -/
def import_row_step (now : ℕ) (acc : ℕ × DBState) (r : ImportRow) :
    ℕ × DBState :=
  match rowDateString r.date with
  | none => acc
  | some dateStr =>
    if pd_isna r.amount || ! isNumericType r.amount then acc
    else if ! categoryTruthy r.category then acc
    else
      match toNumeric r.amount with
      | none => acc
      | some q =>
        match insert_expense acc.2 dateStr q (categoryStr r.category)
            (r.description.getD "") now with
        | .error _ => acc
        | .ok (_, db') => (acc.1 + 1, db')

/-- Line 366-367 of `database.py`: `if "description" not in df.columns:
df["description"] = ""` — executed on the caller's DataFrame itself. -/
def ensureDescriptionColumn (t : ImportTable) : ImportTable :=
  if t.hasDescriptionColumn then t
  else ⟨true, t.rows.map (fun r => { r with description := some "" })⟩

/-- `ExpenseDatabase.import_from_dataframe` (lines 346-415 of
`database.py`).  Returns the imported count, the caller's DataFrame as it
is left after the call (the in-place description-column mutation), and the
new database state. -/
def bulk_import_from_dataframe (t : ImportTable) (db : DBState) (now : ℕ) :
    ℕ × ImportTable × DBState :=
  let t' := ensureDescriptionColumn t
  let res := t'.rows.foldl (import_row_step now) (0, db)
  (res.1, t', res.2)

/-!
## LLM helper (`app/llm_helper.py`)

The external Ollama service is an oracle `chat : model name → system
prompt → user message → response or failure`, and `get_full_model_name`
an oracle `String → String`; `query_expense_ai` never raises — every
failure path returns a composed message.
-/

/-- The static system prompt of `query_expense_ai` (lines 32-47 of
`llm_helper.py`), abbreviated here to its opening line; no claim depends
on its text. -/
def system_prompt : String :=
  "You are LocalBudgetAI, a helpful AI assistant for personal expense analysis."

/-- Line 71 of `llm_helper.py`: the statically configured alternate model. -/
def fallback_model_for (model_choice : String) : String :=
  if model_choice = "mistral" then "llama3" else "mistral"

/-- The user message sent to the model (lines 59 and 83 of
`llm_helper.py`). -/
def user_message (query context : String) : String :=
  "Expense Data Summary:\n" ++ context ++ "\n\nUser Question: " ++ query

/-- The error payload composed when both models fail (lines 95-110 of
`llm_helper.py`): the f-string literal with the two model names and the
two exception texts interpolated. -/
def both_fail_error_message (model_choice fallback_model e1 e2 : String) :
    String :=
  "❌ **AI Assistant Unavailable**\n\n**Issue:** Could not connect to Ollama models.\n\n**Possible solutions:**\n1. **Start Ollama service:** `ollama serve`\n2. **Install required models:**\n   - `ollama pull mistral`\n   - `ollama pull llama3`\n3. **Check Ollama status:** `ollama list`\n\n**Error details:**\n- Primary model ("
    ++ model_choice ++ "): " ++ e1 ++ "\n- Fallback model (" ++ fallback_model
    ++ "): " ++ e2
    ++ "\n\n💡 **Tip:** Make sure Ollama is running before using the AI assistant."

/-- `query_expense_ai` (lines 14-112 of `llm_helper.py`), for the case
where the `ollama` package imports.  `chat` models `ollama.chat` (failure
carries `str(e)`), `full_name` models `get_full_model_name`.  Returns
`(response text, model that served it)`, with `none` for the model when
both attempts failed. -/
def query_expense_ai (chat : String → String → String → Except String String)
    (full_name : String → String) (query context : String)
    (model_choice : String := "mistral") : String × Option String :=
  let userMsg := user_message query context
  match chat (full_name model_choice) system_prompt userMsg with
  | .ok response => (response, some model_choice)
  | .error e1 =>
    let fb := fallback_model_for model_choice
    match chat (full_name fb) system_prompt userMsg with
    | .ok response => (response, some fb)
    | .error e2 => (both_fail_error_message model_choice fb e1 e2, none)

/-- `needle` occurs as a contiguous block in `haystack` starting at its
head. -/
def leadingBlock : List Char → List Char → Bool
  | [], _ => true
  | _ :: _, [] => false
  | x :: xs, y :: ys => if x = y then leadingBlock xs ys else false

/-- `needle` occurs as a contiguous block somewhere in `haystack`. -/
def hasBlock (needle : List Char) : List Char → Bool
  | [] => needle.isEmpty
  | c :: rest => leadingBlock needle (c :: rest) || hasBlock needle rest

/-- `sub` is embedded in `msg`: `msg` contains `sub` as a contiguous
substring. -/
def embedsText (msg sub : String) : Prop :=
  ∃ pre post : String, msg = pre ++ sub ++ post

/-!
## Definitions taken from the specification's words (for comparison only)
-/

/-- Modelled from the spec: the "first occurrence" order — the distinct
elements of a list in the order in which each first occurs.  Used only to
compare the claimed tie-break order with the grouping order of the code. -/
def firstOccurrences {α : Type} [DecidableEq α] : List α → List α
  | [] => []
  | a :: l => a :: firstOccurrences (l.filter (fun x => x ≠ a))
termination_by l => l.length
decreasing_by
  exact Nat.lt_succ_of_le (List.length_filter_le _ _)

/-- Modelled from the spec: `fetch` with half-open range semantics on the
date filters (`start ≤ date < end`), as the claim's words "half-open
ranges" describe.  Used only to compare with `fetch_expenses`. -/
def fetch_expenses_half_open (db : DBState) (limit : Option ℕ := none)
    (category : Option String := none) (start_date : Option String := none)
    (end_date : Option String := none) : List DBRow :=
  let afterCategory :=
    match category with
    | some c => if c = "" then db.rows else db.rows.filter (fun r => r.category = c)
    | none => db.rows
  let afterStart :=
    match start_date with
    | some s => if s = "" then afterCategory
                else afterCategory.filter (fun r => s.toList ≤ r.date.toList)
    | none => afterCategory
  let afterEnd :=
    match end_date with
    | some e => if e = "" then afterStart
                else afterStart.filter (fun r => r.date.toList < e.toList)
    | none => afterStart
  let ordered := afterEnd.insertionSort fetchOrder
  match limit with
  | some n => if n = 0 then ordered else ordered.take n
  | none => ordered

/-!
## Concrete fixtures used by witnesses and counterexamples
-/

/-- Scenario B of the spec: transactions
`[(-10,"Food"),(-20,"Food"),(-5,"Gas")]`. -/
def scenarioBTable : Table :=
  ⟨[⟨"Food", .num (-10), .parsed 0⟩, ⟨"Food", .num (-20), .parsed 0⟩,
    ⟨"Gas", .num (-5), .parsed 0⟩]⟩

/-- Two expense rows with equal totals whose first-occurrence order
(`B` before `A`) differs from the alphabetical grouping order. -/
def tieTable : Table :=
  ⟨[⟨"B", .num (-5), .parsed 0⟩, ⟨"A", .num (-5), .parsed 0⟩]⟩

/-- A non-empty table each of whose rows is dropped by one of the cleaning
steps: a non-numeric amount, an income row, and a below-threshold expense
(whose date is also unparseable). -/
def allDroppedTable : Table :=
  ⟨[⟨"Misc", .invalid, .parsed 1⟩, ⟨"Salary", .num 5, .parsed 1⟩,
    ⟨"Tiny", .num (-1/200), .unparseable⟩]⟩

/-- An all-income table. -/
def allIncomeTable : Table :=
  ⟨[⟨"Salary", .num 2000, .parsed 600⟩, ⟨"Bonus", .num 500, .parsed 601⟩]⟩

/-- A table of expenses whose dates are all unparseable. -/
def badDatesTable : Table :=
  ⟨[⟨"Food", .num (-50), .unparseable⟩, ⟨"Gas", .num (-30), .unparseable⟩]⟩

/-- Expense rows covering two months, given out of order. -/
def twoMonthsTable : Table :=
  ⟨[⟨"A", .num (-10), .parsed 13⟩, ⟨"B", .num (-20), .parsed 7⟩]⟩

/-- A store holding a single row dated on a range boundary. -/
def boundaryRow : DBRow :=
  ⟨1, "2024-01-31", -5, "Food", "groceries", 0, 0⟩

/-- A one-row store used to compare closed and half-open date ranges. -/
def boundaryDb : DBState := ⟨[boundaryRow], 2⟩

/-- A two-row store used by the fetch and update witnesses. -/
def witnessDb : DBState :=
  ⟨[⟨1, "2024-01-15", -50, "Food", "groceries", 0, 0⟩,
    ⟨2, "2024-01-20", 2000, "Income", "salary", 0, 0⟩], 3⟩

/-- An import row whose amount is the string `"50.00"`: a numeric-looking
string cell, not an `int`/`float`. -/
def stringAmountRow : ImportRow :=
  ⟨.ts 2024 1 15, .numStr 50, .str "Food", none⟩

/-- A one-row import DataFrame (no description column) whose only amount
is the numeric string `"50.00"`. -/
def stringAmountTable : ImportTable := ⟨false, [stringAmountRow]⟩

/-- An import DataFrame without a description column. -/
def noDescriptionTable : ImportTable :=
  ⟨false, [⟨.ts 2024 1 15, .num (-50), .str "Food", none⟩,
           ⟨.strRaw (some (2024, 1, 20)), .num 2000, .str "Income", none⟩]⟩

/-- An Ollama oracle on which every request fails with a connection
error, as when the service is not running. -/
def chatAllFail : String → String → String → Except String String :=
  fun _ _ _ => .error "connection refused"

/-- `get_full_model_name` as it behaves when `ollama.list` itself fails:
the `base_name:latest` fallback pattern. -/
def fullNameLatest (base : String) : String := base ++ ":latest"

/-!
## Lemmas about grouping and sorting
-/

instance {α : Type} [GroupKeyOrder α] : IsTotal α GroupKeyOrder.keyLe :=
  ⟨GroupKeyOrder.totalLe⟩

instance {α : Type} [GroupKeyOrder α] : IsTrans α GroupKeyOrder.keyLe :=
  ⟨GroupKeyOrder.transLe⟩

lemma list_sum_map_add {α : Type} (f g : α → ℚ) (l : List α) :
    (l.map (fun x => f x + g x)).sum = (l.map f).sum + (l.map g).sum := by
  induction l with
  | nil => simp
  | cons a l ih => simp [ih]; ring

section GroupLemmas

variable {α : Type} [DecidableEq α]

lemma groupSum_nil (k : α) : groupSum ([] : List (α × ℚ)) k = 0 := rfl

lemma groupSum_cons (p : α × ℚ) (l : List (α × ℚ)) (k : α) :
    groupSum (p :: l) k = (if p.1 = k then p.2 else 0) + groupSum l k := by
  by_cases h : p.1 = k <;> simp [groupSum, List.filter_cons, h]

lemma sum_ite_of_not_mem (keys : List α) (a : α) (ha : a ∉ keys) (v : ℚ) :
    (keys.map (fun k => if a = k then v else 0)).sum = 0 := by
  induction keys with
  | nil => simp
  | cons b keys ih =>
    have hab : a ≠ b := fun h => ha (h ▸ List.mem_cons_self b keys)
    simp [hab, ih (fun h => ha (List.mem_cons_of_mem b h))]

lemma sum_ite_of_mem (keys : List α) (hnd : keys.Nodup) (a : α) (ha : a ∈ keys) (v : ℚ) :
    (keys.map (fun k => if a = k then v else 0)).sum = v := by
  induction keys with
  | nil => simp at ha
  | cons b keys ih =>
    rcases List.mem_cons.mp ha with hab | ha'
    · subst hab
      have : a ∉ keys := (List.nodup_cons.mp hnd).1
      simp [sum_ite_of_not_mem keys a this v]
    · have hab : a ≠ b := by
        rintro rfl
        exact (List.nodup_cons.mp hnd).1 ha'
      simp [hab, ih (List.nodup_cons.mp hnd).2 ha']

lemma sum_map_groupSum (keys : List α) (l : List (α × ℚ)) (hnd : keys.Nodup)
    (hcov : ∀ p ∈ l, p.1 ∈ keys) :
    (keys.map (fun k => groupSum l k)).sum = (l.map Prod.snd).sum := by
  induction l with
  | nil => simp [groupSum_nil]
  | cons p l ih =>
    have h1 : (keys.map (fun k => groupSum (p :: l) k)).sum
        = (keys.map (fun k => if p.1 = k then p.2 else 0)).sum
          + (keys.map (fun k => groupSum l k)).sum := by
      rw [← list_sum_map_add]
      simp only [groupSum_cons]
    rw [h1, sum_ite_of_mem keys hnd p.1 (hcov p (List.mem_cons_self p l)) p.2,
      ih (fun q hq => hcov q (List.mem_cons_of_mem p hq))]
    simp

lemma groupSum_nonneg {l : List (α × ℚ)} (h : ∀ p ∈ l, 0 ≤ p.2) (k : α) :
    0 ≤ groupSum l k := by
  apply List.sum_nonneg
  intro x hx
  rcases List.mem_map.mp hx with ⟨p, hp, rfl⟩
  exact h p (List.mem_filter.mp hp).1

variable [GroupKeyOrder α]

lemma groupKeysSorted_perm (pairs : List (α × ℚ)) :
    List.Perm (groupKeysSorted pairs) ((pairs.map Prod.fst).dedup) :=
  List.perm_insertionSort _ _

lemma groupKeysSorted_nodup (pairs : List (α × ℚ)) :
    (groupKeysSorted pairs).Nodup :=
  (groupKeysSorted_perm pairs).nodup_iff.mpr (List.nodup_dedup _)

lemma groupKeysSorted_sorted (pairs : List (α × ℚ)) :
    (groupKeysSorted pairs).Sorted GroupKeyOrder.keyLe :=
  List.sorted_insertionSort _ _

lemma mem_groupKeysSorted {pairs : List (α × ℚ)} {k : α} :
    k ∈ groupKeysSorted pairs ↔ k ∈ pairs.map Prod.fst := by
  rw [groupKeysSorted, List.mem_insertionSort, List.mem_dedup]

lemma groupbySum_map_fst (pairs : List (α × ℚ)) :
    (groupbySum pairs).map Prod.fst = groupKeysSorted pairs := by
  simp [groupbySum, List.map_map, Function.comp_def]

lemma mem_groupbySum {pairs : List (α × ℚ)} {p : α × ℚ} :
    p ∈ groupbySum pairs ↔
      p.1 ∈ pairs.map Prod.fst ∧ p = (p.1, groupSum pairs p.1) := by
  constructor
  · intro hp
    rcases List.mem_map.mp hp with ⟨k, hk, rfl⟩
    exact ⟨mem_groupKeysSorted.mp hk, rfl⟩
  · rintro ⟨h1, h2⟩
    rw [h2]
    exact List.mem_map.mpr ⟨p.1, mem_groupKeysSorted.mpr h1, rfl⟩

lemma sum_groupbySum (pairs : List (α × ℚ)) :
    ((groupbySum pairs).map Prod.snd).sum = (pairs.map Prod.snd).sum := by
  have h1 : (groupbySum pairs).map Prod.snd
      = (groupKeysSorted pairs).map (fun k => groupSum pairs k) := by
    simp [groupbySum, List.map_map, Function.comp_def]
  rw [h1]
  have h2 := ((groupKeysSorted_perm pairs).map (fun k => groupSum pairs k)).sum_eq
  rw [h2]
  exact sum_map_groupSum _ _ (List.nodup_dedup _)
    (fun p hp => List.mem_dedup.mpr (List.mem_map.mpr ⟨p, hp, rfl⟩))

end GroupLemmas

/-!
## Lemmas about the cleaning pipelines
-/

lemma mem_cleanPairs_false {t : Table} {mt : ℚ} {p : String × ℚ} :
    p ∈ cleanPairs t false mt ↔
      ∃ r ∈ t.rows, ∃ q, toNumeric r.amount = some q ∧ q < 0 ∧ mt ≤ |q| ∧
        p = (r.category, |q|) := by
  simp only [cleanPairs, Bool.false_eq_true, if_false, List.mem_filter,
    List.mem_map, List.mem_filterMap, Option.map_eq_some', decide_eq_true_eq]
  constructor
  · rintro ⟨⟨a, ⟨⟨r, hr, q, hq, rfl⟩, hneg⟩, rfl⟩, hth⟩
    exact ⟨r, hr, q, hq, hneg, hth, rfl⟩
  · rintro ⟨r, hr, q, hq, hneg, hth, rfl⟩
    exact ⟨⟨(r.category, q), ⟨⟨r, hr, q, hq, rfl⟩, hneg⟩, rfl⟩, hth⟩

lemma cleanPairs_false_nonneg (t : Table) (mt : ℚ) :
    ∀ p ∈ cleanPairs t false mt, 0 ≤ p.2 := by
  intro p hp
  rcases mem_cleanPairs_false.mp hp with ⟨r, _, q, _, _, _, rfl⟩
  exact abs_nonneg q

lemma mem_monthlyDatedPairs {t : Table} {p : ℤ × ℚ} :
    p ∈ monthlyDatedPairs t ↔
      ∃ r ∈ t.rows, ∃ q m, toNumeric r.amount = some q ∧
        parseMonth r.date = some m ∧ p = (m, q) := by
  simp only [monthlyDatedPairs, List.mem_filterMap, Option.map_eq_some']
  constructor
  · rintro ⟨a, ⟨r, hr, q, hq, rfl⟩, m, hm, rfl⟩
    exact ⟨r, hr, q, m, hq, hm, rfl⟩
  · rintro ⟨r, hr, q, m, hq, hm, rfl⟩
    exact ⟨(r.date, q), ⟨r, hr, q, hq, rfl⟩, m, hm, rfl⟩


lemma sum_snd_cleanPairs (rows : List Row) (mt : ℚ) :
    ((cleanPairs ⟨rows⟩ false mt).map Prod.snd).sum
      = (((rows.filterMap (fun r => toNumeric r.amount)).filter
            (fun q => decide (q < 0) && decide (mt ≤ |q|))).map (fun q => |q|)).sum := by
  induction rows with
  | nil => rfl
  | cons r rows ih =>
    rcases hr : toNumeric r.amount with _ | q
    · simpa [cleanPairs, List.filterMap_cons, hr] using ih
    · by_cases hneg : q < 0 <;> by_cases hth : mt ≤ |q| <;>
        simp [cleanPairs, List.filterMap_cons, hr, List.filter_cons, hneg, hth, ih] at ih ⊢ <;>
        simp [ih]

/-- C3: whenever `analyze_expenses_by_category` with
`include_income = false` returns, every returned per-category total is
non-negative, and the totals sum to the sum of the absolute values of all
rows with numeric negative amount whose absolute value meets the
`min_amount_threshold`. -/
theorem c3_totals_nonneg_and_sum_balance (t : Table) (mt : ℚ)
    (l : List (String × ℚ))
    (h : analyze_expenses_by_category t false mt = .ok l) :
    (∀ p ∈ l, 0 ≤ p.2) ∧
    (l.map Prod.snd).sum
      = (((t.rows.filterMap (fun r => toNumeric r.amount)).filter
            (fun q => decide (q < 0) && decide (mt ≤ |q|))).map (fun q => |q|)).sum := by
  obtain ⟨rows⟩ := t
  rw [← sum_snd_cleanPairs rows mt]
  unfold analyze_expenses_by_category validate_dataframe at h
  by_cases hrows : (rows : List Row).isEmpty
  · simp [hrows] at h
  · simp only [hrows, Bool.false_eq_true, if_false] at h
    by_cases hcp : (cleanPairs ⟨rows⟩ false mt).isEmpty
    · simp only [hcp, if_true, Except.ok.injEq] at h
      subst h
      refine ⟨by simp, ?_⟩
      rw [List.isEmpty_iff.mp hcp]
    · simp only [hcp, Bool.false_eq_true, if_false, Except.ok.injEq] at h
      subst h
      constructor
      · intro p hp
        have hp2 := (List.mem_insertionSort byTotalDesc).mp hp
        rcases mem_groupbySum.mp hp2 with ⟨h1, h2⟩
        rw [h2]
        exact groupSum_nonneg (cleanPairs_false_nonneg _ mt) p.1
      · rw [((List.perm_insertionSort byTotalDesc _).map Prod.snd).sum_eq,
          sum_groupbySum]


lemma keyLe_int_iff (a b : ℤ) : GroupKeyOrder.keyLe a b ↔ a ≤ b := Iff.rfl

lemma keyLe_string_iff (a b : String) :
    GroupKeyOrder.keyLe a b ↔ a.toList ≤ b.toList := Iff.rfl

/-- C7: whenever `analyze_monthly_trend` returns, its keys (the calendar
months, whose ascending order is exactly the chronological order of the
rendered month strings) are strictly increasing, with no duplicate
key. -/
theorem c7_monthly_keys_strictly_increasing (t : Table) (include_income : Bool)
    (l : List (ℤ × ℚ)) (h : analyze_monthly_trend t include_income = .ok l) :
    (l.map Prod.fst).Pairwise (· < ·) := by
  unfold analyze_monthly_trend validate_dataframe at h
  by_cases hrows : t.rows.isEmpty
  · simp [hrows] at h
  · simp only [hrows, Bool.false_eq_true, if_false] at h
    by_cases hd : (monthlyDatedPairs t).isEmpty
    · simp only [hd, if_true, Except.ok.injEq] at h
      subst h
      simp
    · simp only [hd, Bool.false_eq_true, if_false] at h
      set filtered :=
        if include_income then monthlyDatedPairs t
        else ((monthlyDatedPairs t).filter (fun p => p.2 < 0)).map
          (fun p => (p.1, |p.2|)) with hf
      by_cases hfe : filtered.isEmpty
      · simp only [hfe, if_true, Except.ok.injEq] at h
        subst h
        simp
      · simp only [hfe, Bool.false_eq_true, if_false, Except.ok.injEq] at h
        subst h
        rw [groupbySum_map_fst]
        have hs : (groupKeysSorted filtered).Pairwise (fun a b : ℤ => a ≤ b) :=
          groupKeysSorted_sorted filtered
        have hn : (groupKeysSorted filtered).Pairwise (fun a b : ℤ => a ≠ b) :=
          groupKeysSorted_nodup filtered
        exact (hs.and hn).imp (fun hab => lt_of_le_of_ne hab.1 hab.2)

/-- C7 witness: monthly totals of a concrete two-month table, given out of
order, come back with strictly increasing month keys. -/
theorem c7_monthly_keys_witness :
    analyze_monthly_trend twoMonthsTable false = .ok [(7, 20), (13, 10)] ∧
    (([((7:ℤ), (20:ℚ)), (13, 10)]).map Prod.fst).Pairwise (· < ·) := by
  have h : analyze_monthly_trend twoMonthsTable false = .ok [(7, 20), (13, 10)] := by
    norm_num [twoMonthsTable, analyze_monthly_trend, validate_dataframe,
      monthlyDatedPairs, groupbySum, groupKeysSorted, groupSum, toNumeric,
      parseMonth, List.insertionSort, List.orderedInsert, List.dedup,
      GroupKeyOrder.keyLe, List.filterMap, List.filter, List.map]
  exact ⟨h, c7_monthly_keys_strictly_increasing twoMonthsTable false _ h⟩


/-- C3 witness: the non-negativity and sum balance evaluated on the
concrete scenario-B table at the default threshold. -/
theorem c3_totals_witness :
    analyze_expenses_by_category scenarioBTable false (1/100)
        = .ok [("Food", 30), ("Gas", 5)] ∧
    ((∀ p ∈ [(("Food":String), (30:ℚ)), ("Gas", 5)], 0 ≤ p.2) ∧
      ([(("Food":String), (30:ℚ)), ("Gas", 5)].map Prod.snd).sum
        = (((scenarioBTable.rows.filterMap (fun r => toNumeric r.amount)).filter
              (fun q => decide (q < 0) && decide ((1:ℚ)/100 ≤ |q|))).map
            (fun q => |q|)).sum) := by
  have h : analyze_expenses_by_category scenarioBTable false (1/100)
      = .ok [("Food", 30), ("Gas", 5)] := by
    norm_num [scenarioBTable, analyze_expenses_by_category, validate_dataframe,
      cleanPairs, groupbySum, groupKeysSorted, groupSum, toNumeric,
      List.insertionSort, List.orderedInsert, List.dedup, byTotalDesc,
      GroupKeyOrder.keyLe, List.filterMap, List.filter, List.map]
  exact ⟨h, c3_totals_nonneg_and_sum_balance scenarioBTable (1/100) _ h⟩

/-- C4 (amended): `analyze_expenses_by_category` returns its
category-total pairs sorted in descending order of total, and the
grouping stage emits categories in ascending key order (pandas `groupby`
with its default key sorting), not first-occurrence order; the concrete
scenario of rows `(-10,Food),(-20,Food),(-5,Gas)` yields `Food: 30` then
`Gas: 5` in that order.  The relative output order of categories with
equal totals is delegated by the source to an unstable library sort and
is not part of this statement. -/
theorem c4_descending_order_and_scenario (t : Table) (include_income : Bool)
    (mt : ℚ) (l : List (String × ℚ))
    (h : analyze_expenses_by_category t include_income mt = .ok l) :
    l.Pairwise byTotalDesc ∧
    (groupKeysSorted (cleanPairs t include_income mt)).Pairwise
      GroupKeyOrder.keyLe ∧
    analyze_expenses_by_category scenarioBTable false (1/100)
        = .ok [("Food", 30), ("Gas", 5)] := by
  refine ⟨?_, groupKeysSorted_sorted _, ?_⟩
  · unfold analyze_expenses_by_category validate_dataframe at h
    by_cases hrows : t.rows.isEmpty
    · simp [hrows] at h
    · simp only [hrows, Bool.false_eq_true, if_false] at h
      by_cases hcp : (cleanPairs t include_income mt).isEmpty
      · simp only [hcp, if_true, Except.ok.injEq] at h
        subst h
        simp
      · simp only [hcp, Bool.false_eq_true, if_false, Except.ok.injEq] at h
        subst h
        exact List.sorted_insertionSort byTotalDesc _
  · norm_num [scenarioBTable, analyze_expenses_by_category, validate_dataframe,
      cleanPairs, groupbySum, groupKeysSorted, groupSum, toNumeric,
      List.insertionSort, List.orderedInsert, List.dedup, byTotalDesc,
      GroupKeyOrder.keyLe, List.filterMap, List.filter, List.map]

/-- C4 counterexample: on rows `(-5,B),(-5,A)` (equal totals), the
grouping emits `A` before `B` (ascending key order of pandas `groupby`),
while the claim's first-occurrence order is `B` before `A`; the two
orders the claim identifies with each other differ, refuting the claimed
tie-break. -/
theorem c4_tiebreak_counterexample :
    groupSum (cleanPairs tieTable false (1/100)) "A"
        = groupSum (cleanPairs tieTable false (1/100)) "B" ∧
    groupKeysSorted (cleanPairs tieTable false (1/100)) = ["A", "B"] ∧
    firstOccurrences ((cleanPairs tieTable false (1/100)).map Prod.fst)
        = ["B", "A"] ∧
    (["A", "B"] : List String) ≠ ["B", "A"] := by
  refine ⟨?_, ?_, ?_, by decide⟩
  · norm_num [tieTable, cleanPairs, groupSum, toNumeric, List.filterMap,
      List.filter, List.map]
  · norm_num [tieTable, cleanPairs, groupKeysSorted, toNumeric,
      List.insertionSort, List.orderedInsert, List.dedup,
      GroupKeyOrder.keyLe, List.filterMap, List.filter, List.map,
      (by decide : ¬ ((['B'] : List Char) ≤ ['A'])),
      (by decide : ((['A'] : List Char) ≤ ['B']))]
  · norm_num [tieTable, cleanPairs, firstOccurrences, toNumeric,
      List.filterMap, List.filter, List.map,
      (by decide : ¬ (("A":String) = "B")), (by decide : ¬ (("B":String) = "A"))]


lemma analyze_cat_ok_nil (t : Table) (mt : ℚ) (hne : ¬ t.rows.isEmpty)
    (hcp : cleanPairs t false mt = []) :
    analyze_expenses_by_category t false mt = .ok [] := by
  unfold analyze_expenses_by_category validate_dataframe
  simp [hne, hcp]

lemma analyze_cat_ok_of_ne_nil (t : Table) (inc : Bool) (mt : ℚ)
    (hne : ¬ t.rows.isEmpty) :
    ∃ l, analyze_expenses_by_category t inc mt = .ok l := by
  unfold analyze_expenses_by_category validate_dataframe
  by_cases hcp : (cleanPairs t inc mt).isEmpty <;> simp [hne, hcp]

lemma analyze_monthly_ok_nil (t : Table) (hne : ¬ t.rows.isEmpty)
    (hfil : (monthlyDatedPairs t).filter (fun p => p.2 < 0) = []) :
    analyze_monthly_trend t false = .ok [] := by
  unfold analyze_monthly_trend validate_dataframe
  by_cases hd : (monthlyDatedPairs t).isEmpty <;> simp [hne, hd, hfil]

/-- C1 (amended): for every non-empty transaction table all of whose rows
are dropped by amount coercion, the expense filter, or the min-amount
threshold, `analyze_expenses_by_category` (and likewise
`analyze_monthly_trend`, whose drops are coercion, date parsing and the
expense filter) returns an empty mapping without error; an empty table
instead raises `ValueError("DataFrame is empty")`. -/
theorem c1_all_rows_dropped_empty_mapping (t : Table) (mt : ℚ)
    (hne : t.rows ≠ [])
    (hcat : ∀ r ∈ t.rows, ∀ q, toNumeric r.amount = some q → 0 ≤ q ∨ |q| < mt)
    (hmon : ∀ r ∈ t.rows, ∀ q m, toNumeric r.amount = some q →
      parseMonth r.date = some m → 0 ≤ q) :
    analyze_expenses_by_category t false mt = .ok [] ∧
    analyze_monthly_trend t false = .ok [] ∧
    analyze_expenses_by_category ⟨[]⟩ false mt = .error "DataFrame is empty" ∧
    analyze_monthly_trend ⟨[]⟩ false = .error "DataFrame is empty" := by
  have hne' : ¬ t.rows.isEmpty := by
    rw [List.isEmpty_iff]
    exact hne
  refine ⟨?_, ?_, by rfl, by rfl⟩
  · apply analyze_cat_ok_nil t mt hne'
    rw [List.eq_nil_iff_forall_not_mem]
    intro p hp
    rcases mem_cleanPairs_false.mp hp with ⟨r, hr, q, hq, hqneg, hqth, rfl⟩
    rcases hcat r hr q hq with h0 | hlt
    · exact absurd hqneg (not_lt.mpr h0)
    · exact absurd hqth (not_le.mpr hlt)
  · apply analyze_monthly_ok_nil t hne'
    rw [List.eq_nil_iff_forall_not_mem]
    intro p hp
    have hp1 := List.mem_filter.mp hp
    rcases mem_monthlyDatedPairs.mp hp1.1 with ⟨r, hr, q, m, hq, hm, rfl⟩
    have hneg : q < 0 := by
      have := hp1.2
      simpa using this
    exact absurd hneg (not_lt.mpr (hmon r hr q m hq hm))

/-- C1 counterexample: on the empty (structurally valid) table, both
aggregation functions raise `ValueError("DataFrame is empty")` instead of
returning an empty mapping, refuting the claim as stated. -/
theorem c1_empty_table_raises :
    analyze_expenses_by_category ⟨[]⟩ false (1/100)
        = .error "DataFrame is empty" ∧
    analyze_expenses_by_category ⟨[]⟩ false (1/100) ≠ .ok [] ∧
    analyze_monthly_trend ⟨[]⟩ false = .error "DataFrame is empty" := by
  refine ⟨rfl, ?_, rfl⟩
  intro h
  simp [analyze_expenses_by_category, validate_dataframe] at h

/-- C1 witness: on a concrete non-empty table whose three rows are dropped
by coercion, the expense filter and the threshold respectively, both
aggregation functions return the empty mapping. -/
theorem c1_all_rows_dropped_witness :
    analyze_expenses_by_category allDroppedTable false (1/100) = .ok [] ∧
    analyze_monthly_trend allDroppedTable false = .ok [] := by
  have h := c1_all_rows_dropped_empty_mapping allDroppedTable (1/100)
    (by simp [allDroppedTable])
    (by
      intro r hr q hq
      simp only [allDroppedTable, List.mem_cons, List.not_mem_nil, or_false] at hr
      rcases hr with rfl | rfl | rfl
      · simp [toNumeric] at hq
      · simp only [toNumeric, Option.some.injEq] at hq
        left
        rw [← hq]
        norm_num
      · simp only [toNumeric, Option.some.injEq] at hq
        right
        rw [← hq, abs_of_neg (by norm_num : (-1/200 : ℚ) < 0)]
        norm_num)
    (by
      intro r hr q m hq hm
      simp only [allDroppedTable, List.mem_cons, List.not_mem_nil, or_false] at hr
      rcases hr with rfl | rfl | rfl
      · simp [toNumeric] at hq
      · simp only [toNumeric, Option.some.injEq] at hq
        rw [← hq]
        norm_num
      · simp [parseMonth] at hm)
  exact ⟨h.1, h.2.1⟩


lemma generate_eq_ok (t : Table) (cat : List (String × ℚ))
    (monthly : List (ℤ × ℚ))
    (hcat : analyze_expenses_by_category t false (1/100) = .ok cat)
    (hmon : analyze_monthly_trend t false = .ok monthly) :
    generate_expense_summary_report t = .ok {
      total_records := t.rows.length
      total_expenses := (cat.map Prod.snd).sum
      total_income := ((t.rows.filterMap (fun r => toNumeric r.amount)).filter
        (fun q => 0 < q)).sum
      net_savings := ((t.rows.filterMap (fun r => toNumeric r.amount)).filter
        (fun q => 0 < q)).sum - (cat.map Prod.snd).sum
      top_expense_category := match cat with | [] => "N/A" | p :: _ => p.1
      categories_count := cat.length
      months_covered := monthly.length
      avg_monthly_expense :=
        if monthly.isEmpty then 0
        else (monthly.map Prod.snd).sum / (monthly.length : ℚ)
      expense_by_category := cat
      monthly_expenses := monthly } := by
  simp only [generate_expense_summary_report, hcat, hmon]
  cases cat <;> rfl

/-- C2 (amended): `generate_expense_summary_report` never raises on
degenerate input, but on an empty table it returns the error dictionary
(modelled by `ReportResult.err`) rather than a zeroed report; on a
non-empty all-income table it returns a report with zero total expenses,
top category `"N/A"`, zero category/month counts and averages, and
net savings equal to the (non-zero) income; on a non-empty table whose
dates are all unparseable it returns a report whose monthly fields are
zeroed/empty. -/
theorem c2_summary_report_degenerate (t : Table) :
    (t.rows = [] →
      generate_expense_summary_report t = .err "DataFrame is empty") ∧
    (t.rows ≠ [] → (∀ r ∈ t.rows, ∃ q, toNumeric r.amount = some q ∧ 0 < q) →
      ∃ rep, generate_expense_summary_report t = .ok rep ∧
        rep.total_expenses = 0 ∧ rep.top_expense_category = "N/A" ∧
        rep.categories_count = 0 ∧ rep.months_covered = 0 ∧
        rep.avg_monthly_expense = 0 ∧ rep.expense_by_category = [] ∧
        rep.monthly_expenses = [] ∧ rep.net_savings = rep.total_income) ∧
    (t.rows ≠ [] → (∀ r ∈ t.rows, parseMonth r.date = none) →
      ∃ rep, generate_expense_summary_report t = .ok rep ∧
        rep.months_covered = 0 ∧ rep.avg_monthly_expense = 0 ∧
        rep.monthly_expenses = []) := by
  refine ⟨?_, ?_, ?_⟩
  · intro hnil
    obtain ⟨rows⟩ := t
    simp only at hnil
    subst hnil
    rfl
  · intro hne hpos
    have hne' : ¬ t.rows.isEmpty := by rw [List.isEmpty_iff]; exact hne
    have hcp : cleanPairs t false (1/100) = [] := by
      rw [List.eq_nil_iff_forall_not_mem]
      intro p hp
      rcases mem_cleanPairs_false.mp hp with ⟨r, hr, q, hq, hqneg, _, rfl⟩
      rcases hpos r hr with ⟨q', hq', hq'pos⟩
      rw [hq] at hq'
      cases hq'
      exact absurd hqneg (not_lt.mpr (le_of_lt hq'pos))
    have hcat := analyze_cat_ok_nil t (1/100) hne' hcp
    have hfil : (monthlyDatedPairs t).filter (fun p => p.2 < 0) = [] := by
      rw [List.eq_nil_iff_forall_not_mem]
      intro p hp
      have hp1 := List.mem_filter.mp hp
      rcases mem_monthlyDatedPairs.mp hp1.1 with ⟨r, hr, q, m, hq, hm, rfl⟩
      rcases hpos r hr with ⟨q', hq', hq'pos⟩
      rw [hq] at hq'
      cases hq'
      have hneg : q < 0 := by simpa using hp1.2
      exact absurd hneg (not_lt.mpr (le_of_lt hq'pos))
    have hmon := analyze_monthly_ok_nil t hne' hfil
    refine ⟨_, generate_eq_ok t [] [] hcat hmon, ?_⟩
    simp
  · intro hne hbad
    have hne' : ¬ t.rows.isEmpty := by rw [List.isEmpty_iff]; exact hne
    have hdated : monthlyDatedPairs t = [] := by
      rw [List.eq_nil_iff_forall_not_mem]
      intro p hp
      rcases mem_monthlyDatedPairs.mp hp with ⟨r, hr, q, m, hq, hm, rfl⟩
      rw [hbad r hr] at hm
      cases hm
    have hmon : analyze_monthly_trend t false = .ok [] := by
      apply analyze_monthly_ok_nil t hne'
      rw [hdated]
      rfl
    rcases analyze_cat_ok_of_ne_nil t false (1/100) hne' with ⟨l, hcat⟩
    refine ⟨_, generate_eq_ok t l [] hcat hmon, ?_⟩
    simp


/-- C2 counterexample: on the empty table `generate_expense_summary_report`
returns the error dictionary, not a report with zeroed numeric fields and
the `"N/A"` top-category sentinel, refuting the claim as stated. -/
theorem c2_empty_table_error_dict :
    generate_expense_summary_report ⟨[]⟩ = .err "DataFrame is empty" := rfl

/-- C2 witness: the three degenerate families evaluated at concrete
tables: empty, all-income, and all-unparseable-dates. -/
theorem c2_summary_report_witness :
    generate_expense_summary_report ⟨[]⟩ = .err "DataFrame is empty" ∧
    (∃ rep, generate_expense_summary_report allIncomeTable = .ok rep ∧
      rep.total_expenses = 0 ∧ rep.top_expense_category = "N/A" ∧
      rep.categories_count = 0 ∧ rep.months_covered = 0 ∧
      rep.avg_monthly_expense = 0 ∧ rep.expense_by_category = [] ∧
      rep.monthly_expenses = [] ∧ rep.net_savings = rep.total_income) ∧
    (∃ rep, generate_expense_summary_report badDatesTable = .ok rep ∧
      rep.months_covered = 0 ∧ rep.avg_monthly_expense = 0 ∧
      rep.monthly_expenses = []) := by
  refine ⟨(c2_summary_report_degenerate ⟨[]⟩).1 rfl,
    (c2_summary_report_degenerate allIncomeTable).2.1
      (by simp [allIncomeTable]) ?_,
    (c2_summary_report_degenerate badDatesTable).2.2
      (by simp [badDatesTable]) ?_⟩
  · intro r hr
    simp only [allIncomeTable, List.mem_cons, List.not_mem_nil, or_false] at hr
    rcases hr with rfl | rfl <;> exact ⟨_, rfl, by norm_num⟩
  · intro r hr
    simp only [badDatesTable, List.mem_cons, List.not_mem_nil, or_false] at hr
    rcases hr with rfl | rfl <;> rfl


/-- C4 witness: descending order and ascending grouping emission evaluated
on the concrete scenario-B table. -/
theorem c4_descending_witness :
    analyze_expenses_by_category scenarioBTable false (1/100)
        = .ok [("Food", 30), ("Gas", 5)] ∧
    ([(("Food":String), (30:ℚ)), ("Gas", 5)]).Pairwise byTotalDesc ∧
    (groupKeysSorted (cleanPairs scenarioBTable false (1/100))).Pairwise
      GroupKeyOrder.keyLe := by
  have h : analyze_expenses_by_category scenarioBTable false (1/100)
      = .ok [("Food", 30), ("Gas", 5)] := by
    norm_num [scenarioBTable, analyze_expenses_by_category, validate_dataframe,
      cleanPairs, groupbySum, groupKeysSorted, groupSum, toNumeric,
      List.insertionSort, List.orderedInsert, List.dedup, byTotalDesc,
      GroupKeyOrder.keyLe, List.filterMap, List.filter, List.map]
  have h2 := c4_descending_order_and_scenario scenarioBTable false (1/100) _ h
  exact ⟨h, h2.1, h2.2.1⟩

/-- C5 (amended): `fetch_expenses` accepts independently optional filters,
equality on category and closed (inclusive) lower/upper date bounds,
combined with logical AND; with no filters it returns the entire set; the
result is always ordered by date descending then id descending.  (No
amount filter exists in the code.) -/
theorem c5_fetch_filters_and_order (db : DBState) (c s e : String)
    (hc : c ≠ "") (hs : s ≠ "") (he : e ≠ "") :
    List.Perm (fetch_expenses db none none none none) db.rows ∧
    (fetch_expenses db none none none none).Pairwise fetchOrder ∧
    (∀ x, x ∈ fetch_expenses db none (some c) (some s) (some e) ↔
      x ∈ db.rows ∧ x.category = c ∧ s.toList ≤ x.date.toList ∧
        x.date.toList ≤ e.toList) ∧
    (fetch_expenses db none (some c) (some s) (some e)).Pairwise
      fetchOrder := by
  refine ⟨List.perm_insertionSort _ _, List.sorted_insertionSort _ _, ?_, ?_⟩
  · intro x
    unfold fetch_expenses
    simp only [hc, hs, he, if_false, List.mem_insertionSort, List.mem_filter,
      decide_eq_true_eq]
    tauto
  · unfold fetch_expenses
    simp only [hc, hs, he, if_false]
    exact List.sorted_insertionSort _ _

/-- C6: `update_expense` on an id not present in the store, with otherwise
valid arguments, returns `false` rather than raising, and leaves the
store entirely unchanged. -/
theorem c6_update_missing_id_returns_false (db : DBState) (expense_id : ℕ)
    (date : String) (amount : ℚ) (category description : String) (now : ℕ)
    (hd : date ≠ "") (hc : category ≠ "")
    (hv : valid_date_format date = true)
    (hid : ∀ r ∈ db.rows, r.id ≠ expense_id) :
    update_expense db expense_id date amount category description now
      = .ok (false, db) := by
  unfold update_expense
  simp only [hd, hc, hv, decide_eq_true_eq, if_false, Bool.not_true,
    Bool.false_eq_true, decide_eq_false_iff_not, Bool.or_eq_true, or_self,
    Bool.not_eq_true]
  have hany : db.rows.any (fun r => r.id = expense_id) = false := by
    rw [List.any_eq_false]
    intro r hr
    simp [hid r hr]
  have hmap : db.rows.map (fun r =>
      if r.id = expense_id then
        { r with date := date, amount := amount, category := category,
                 description := description, updated_at := now }
      else r) = db.rows := by
    rw [List.map_congr_left (g := id), List.map_id]
    intro r hr
    simp [hid r hr]
  rw [hany, hmap]


/-- C5 counterexample: a row dated exactly on the upper bound is included
by `fetch_expenses` (closed range, `date <= end`), while the claim's
half-open range semantics would exclude it. -/
theorem c5_closed_range_counterexample :
    fetch_expenses boundaryDb none none none (some "2024-01-31")
        = [boundaryRow] ∧
    fetch_expenses_half_open boundaryDb none none none (some "2024-01-31")
        = [] ∧
    ([boundaryRow] : List DBRow) ≠ [] := by
  refine ⟨?_, ?_, by simp⟩
  · rfl
  · rfl

/-- C5 witness: the fetch ordering and filter characterization evaluated
on a concrete two-row store. -/
theorem c5_fetch_witness :
    List.Perm (fetch_expenses witnessDb none none none none) witnessDb.rows ∧
    (fetch_expenses witnessDb none none none none).Pairwise fetchOrder ∧
    (∀ x, x ∈ fetch_expenses witnessDb none (some "Food")
        (some "2024-01-01") (some "2024-12-31") ↔
      x ∈ witnessDb.rows ∧ x.category = "Food" ∧
        ("2024-01-01":String).toList ≤ x.date.toList ∧
        x.date.toList ≤ ("2024-12-31":String).toList) ∧
    (fetch_expenses witnessDb none (some "Food") (some "2024-01-01")
      (some "2024-12-31")).Pairwise fetchOrder :=
  c5_fetch_filters_and_order witnessDb "Food" "2024-01-01" "2024-12-31"
    (by decide) (by decide) (by decide)

/-- C6 witness: updating the non-existent id 999 on a concrete two-row
store returns `false` and leaves the store unchanged. -/
theorem c6_update_missing_id_witness :
    update_expense witnessDb 999 "2024-02-01" (-75) "Food" "lunch" 5
      = .ok (false, witnessDb) :=
  c6_update_missing_id_returns_false witnessDb 999 "2024-02-01" (-75) "Food"
    "lunch" 5 (by decide) (by decide) (by decide)
    (by
      intro r hr
      simp only [witnessDb, List.mem_cons, List.not_mem_nil, or_false] at hr
      rcases hr with rfl | rfl <;> decide)


lemma leadingBlock_self_append (n l2 : List Char) :
    leadingBlock n (n ++ l2) = true := by
  induction n with
  | nil => rfl
  | cons c cs ih => simp [leadingBlock, ih]

lemma hasBlock_of_split (l1 n l2 : List Char) :
    hasBlock n (l1 ++ n ++ l2) = true := by
  induction l1 with
  | nil =>
    cases n with
    | nil => cases l2 <;> simp [hasBlock, leadingBlock]
    | cons c cs => simp [hasBlock, leadingBlock, leadingBlock_self_append]
  | cons a l1 ih =>
    show hasBlock n (a :: (l1 ++ n ++ l2)) = true
    simp only [hasBlock]
    rw [ih]
    simp

lemma embedsText_hasBlock {msg sub : String} (h : embedsText msg sub) :
    hasBlock sub.toList msg.toList = true := by
  rcases h with ⟨pre, post, rfl⟩
  have hl : (pre ++ sub ++ post).toList = pre.toList ++ sub.toList ++ post.toList := by
    simp [String.toList, String.data_append]
  rw [hl]
  exact hasBlock_of_split pre.toList sub.toList post.toList

/-- C8 (amended): when both the primary model and the single fallback
model fail, `query_expense_ai` returns (does not raise) the composed
error payload, which embeds both error detail strings and the two model
names; the aggregation context is not part of the payload. -/
theorem c8_both_fail_error_payload
    (chat : String → String → String → Except String String)
    (full_name : String → String) (query context model_choice e1 e2 : String)
    (h1 : chat (full_name model_choice) system_prompt
      (user_message query context) = .error e1)
    (h2 : chat (full_name (fallback_model_for model_choice)) system_prompt
      (user_message query context) = .error e2) :
    query_expense_ai chat full_name query context model_choice
      = (both_fail_error_message model_choice
          (fallback_model_for model_choice) e1 e2, none) ∧
    embedsText (both_fail_error_message model_choice
      (fallback_model_for model_choice) e1 e2) e1 ∧
    embedsText (both_fail_error_message model_choice
      (fallback_model_for model_choice) e1 e2) e2 ∧
    embedsText (both_fail_error_message model_choice
      (fallback_model_for model_choice) e1 e2) model_choice := by
  refine ⟨?_, ?_, ?_, ?_⟩
  · simp only [query_expense_ai, h1, h2]
  · exact ⟨"\u274c **AI Assistant Unavailable**\n\n**Issue:** Could not connect to Ollama models.\n\n**Possible solutions:**\n1. **Start Ollama service:** `ollama serve`\n2. **Install required models:**\n   - `ollama pull mistral`\n   - `ollama pull llama3`\n3. **Check Ollama status:** `ollama list`\n\n**Error details:**\n- Primary model (" ++ model_choice ++ "): ",
      "\n- Fallback model (" ++ fallback_model_for model_choice ++ "): " ++ e2
        ++ "\n\n💡 **Tip:** Make sure Ollama is running before using the AI assistant.",
      by simp [both_fail_error_message, String.append_assoc]⟩
  · exact ⟨"\u274c **AI Assistant Unavailable**\n\n**Issue:** Could not connect to Ollama models.\n\n**Possible solutions:**\n1. **Start Ollama service:** `ollama serve`\n2. **Install required models:**\n   - `ollama pull mistral`\n   - `ollama pull llama3`\n3. **Check Ollama status:** `ollama list`\n\n**Error details:**\n- Primary model (" ++ model_choice ++ "): " ++ e1
        ++ "\n- Fallback model (" ++ fallback_model_for model_choice ++ "): ",
      "\n\n💡 **Tip:** Make sure Ollama is running before using the AI assistant.",
      by simp [both_fail_error_message, String.append_assoc]⟩
  · exact ⟨"❌ **AI Assistant Unavailable**\n\n**Issue:** Could not connect to Ollama models.\n\n**Possible solutions:**\n1. **Start Ollama service:** `ollama serve`\n2. **Install required models:**\n   - `ollama pull mistral`\n   - `ollama pull llama3`\n3. **Check Ollama status:** `ollama list`\n\n**Error details:**\n- Primary model (",
      "): " ++ e1 ++ "\n- Fallback model (" ++ fallback_model_for model_choice
        ++ "): " ++ e2
        ++ "\n\n💡 **Tip:** Make sure Ollama is running before using the AI assistant.",
      by simp [both_fail_error_message, String.append_assoc]⟩

set_option maxRecDepth 40000 in
/-- C8 counterexample: with both models failing, the returned error
payload does not contain the aggregation context text that was passed in
(here the marker string `CTXMARKER`), refuting the claim that the caller
still receives the aggregation content. -/
theorem c8_context_not_embedded :
    (query_expense_ai chatAllFail fullNameLatest "What did I spend?"
      "CTXMARKER" "mistral").2 = none ∧
    ¬ embedsText (query_expense_ai chatAllFail fullNameLatest
      "What did I spend?" "CTXMARKER" "mistral").1 "CTXMARKER" := by
  refine ⟨rfl, ?_⟩
  intro h
  have hb := embedsText_hasBlock h
  have hev : (query_expense_ai chatAllFail fullNameLatest "What did I spend?"
      "CTXMARKER" "mistral").1
      = both_fail_error_message "mistral" "llama3" "connection refused"
          "connection refused" := rfl
  rw [hev] at hb
  exact absurd hb (by decide)


/-- C8 witness: the both-fail payload evaluated against a concrete
always-failing chat oracle. -/
theorem c8_both_fail_witness :
    chatAllFail (fullNameLatest "mistral") system_prompt
        (user_message "q" "ctx") = .error "connection refused" ∧
    query_expense_ai chatAllFail fullNameLatest "q" "ctx" "mistral"
      = (both_fail_error_message "mistral" "llama3" "connection refused"
          "connection refused", none) ∧
    embedsText (both_fail_error_message "mistral" "llama3"
      "connection refused" "connection refused") "connection refused" := by
  have h := c8_both_fail_error_payload chatAllFail fullNameLatest "q" "ctx"
    "mistral" "connection refused" "connection refused" rfl rfl
  exact ⟨rfl, h.1, h.2.1⟩

/-- C9: during bulk import, a row whose amount cell is not of Python type
`int`/`float`, in particular a string such as `"50.00"` even though it
parses as a number, is skipped and not counted; a table of such rows
imports zero rows and leaves the database unchanged. -/
theorem c9_non_numeric_type_rows_skipped (now : ℕ) (acc : ℕ × DBState)
    (r : ImportRow) (t : ImportTable) (db : DBState)
    (hr : isNumericType r.amount = false)
    (ht : ∀ x ∈ t.rows, isNumericType x.amount = false) :
    import_row_step now acc r = acc ∧
    (bulk_import_from_dataframe t db now).1 = 0 ∧
    (bulk_import_from_dataframe t db now).2.2 = db := by
  have step : ∀ (acc : ℕ × DBState) (r : ImportRow),
      isNumericType r.amount = false → import_row_step now acc r = acc := by
    intro acc r hr
    unfold import_row_step
    cases hd : rowDateString r.date
    · rfl
    · simp [hr]
  have hfold : ∀ (rows : List ImportRow) (acc : ℕ × DBState),
      (∀ x ∈ rows, isNumericType x.amount = false) →
      rows.foldl (import_row_step now) acc = acc := by
    intro rows
    induction rows with
    | nil => intro acc _; rfl
    | cons x rows ih =>
      intro acc hx
      rw [List.foldl_cons, step acc x (hx x (List.mem_cons_self x rows))]
      exact ih acc (fun y hy => hx y (List.mem_cons_of_mem x hy))
  have hens : ∀ x ∈ (ensureDescriptionColumn t).rows,
      isNumericType x.amount = false := by
    intro x hx
    unfold ensureDescriptionColumn at hx
    by_cases hdc : t.hasDescriptionColumn
    · simp only [hdc, if_true] at hx
      exact ht x hx
    · simp only [hdc, Bool.false_eq_true, if_false, List.mem_map] at hx
      rcases hx with ⟨y, hy, rfl⟩
      exact ht y hy
  refine ⟨step acc r hr, ?_, ?_⟩ <;>
    simp only [bulk_import_from_dataframe, hfold _ _ hens]

/-- C9 witness: importing a single row whose amount is the numeric string
`"50.00"` counts zero rows and inserts nothing. -/
theorem c9_string_amount_witness :
    isNumericType stringAmountRow.amount = false ∧
    import_row_step 0 (0, ⟨[], 1⟩) stringAmountRow = (0, ⟨[], 1⟩) ∧
    (bulk_import_from_dataframe stringAmountTable ⟨[], 1⟩ 0).1 = 0 ∧
    (bulk_import_from_dataframe stringAmountTable ⟨[], 1⟩ 0).2.2
      = (⟨[], 1⟩ : DBState) := by
  have ht : ∀ x ∈ stringAmountTable.rows, isNumericType x.amount = false := by
    intro x hx
    simp only [stringAmountTable, List.mem_cons, List.not_mem_nil,
      or_false] at hx
    subst hx
    rfl
  have h := c9_non_numeric_type_rows_skipped 0 (0, ⟨[], 1⟩) stringAmountRow
    stringAmountTable ⟨[], 1⟩ rfl ht
  exact ⟨rfl, h.1, h.2.1, h.2.2⟩

/-- C10: when the imported table lacks a description column, bulk import
mutates the caller's table in place, adding a description column of empty
strings (so the caller's input value changes), and leaves the other
columns of every row unchanged. -/
theorem c10_import_adds_description_in_place (t : ImportTable) (db : DBState)
    (now : ℕ) (h : t.hasDescriptionColumn = false) :
    (bulk_import_from_dataframe t db now).2.1
        = ⟨true, t.rows.map (fun r => { r with description := some "" })⟩ ∧
    (bulk_import_from_dataframe t db now).2.1 ≠ t ∧
    (bulk_import_from_dataframe t db now).2.1.rows.map
        (fun r => (r.date, r.amount, r.category))
      = t.rows.map (fun r => (r.date, r.amount, r.category)) := by
  have h1 : (bulk_import_from_dataframe t db now).2.1
      = ensureDescriptionColumn t := rfl
  rw [h1]
  unfold ensureDescriptionColumn
  simp only [h, Bool.false_eq_true, if_false]
  refine ⟨by simp, ?_, ?_⟩
  · intro heq
    have h2 := congrArg ImportTable.hasDescriptionColumn heq
    rw [h] at h2
    cases h2
  · rw [List.map_map]
    rfl

/-- C10 witness: the in-place description-column mutation evaluated on a
concrete two-row import table. -/
theorem c10_import_mutation_witness :
    noDescriptionTable.hasDescriptionColumn = false ∧
    (bulk_import_from_dataframe noDescriptionTable ⟨[], 1⟩ 0).2.1
        = ⟨true, noDescriptionTable.rows.map
            (fun r => { r with description := some "" })⟩ ∧
    (bulk_import_from_dataframe noDescriptionTable ⟨[], 1⟩ 0).2.1
        ≠ noDescriptionTable ∧
    (bulk_import_from_dataframe noDescriptionTable ⟨[], 1⟩ 0).2.1.rows.map
        (fun r => (r.date, r.amount, r.category))
      = noDescriptionTable.rows.map
          (fun r => (r.date, r.amount, r.category)) := by
  have h := c10_import_adds_description_in_place noDescriptionTable ⟨[], 1⟩ 0 rfl
  exact ⟨rfl, h.1, h.2.1, h.2.2⟩

end LocalBudgetAI
